import Mathlib

set_option maxRecDepth 4000

/-!
Shallow embedding of the roster normalization core of the
`iu-football-gameday` application (`src/lib/roster/data.ts` and the
roster selectors/hooks), together with theorems checking the
natural-language specification against it.

JavaScript runtime values reachable from a JSON payload are modelled by
`JVal`; the JS `undefined` value is the `undefined` constructor, so a missing
object property reads as `undefined`.  JSON numbers are modelled as integers
(`Int`): every number produced by `JSON.parse` is finite, and no claim
under scrutiny depends on non-integral values, so `Number.isFinite`
checks are true exactly on `num` values.  `localeCompare` with
`sensitivity: 'base'` is modelled as sign comparison of the lowercased
strings.
-/

inductive JVal where
  | undefined
  | null
  | bool (b : Bool)
  | num (n : Int)
  | str (s : String)
  | arr (items : List JVal)
  | obj (fields : List (String × JVal))

/-- JS `String.prototype.trim()`: drop whitespace from both ends
(defined over the character list so that it reduces definitionally). -/
def jsTrim (s : String) : String :=
  ⟨((s.data.dropWhile Char.isWhitespace).reverse.dropWhile Char.isWhitespace).reverse⟩

/-- JS `String.prototype.toLowerCase()` restricted to the simple
per-character mapping. -/
def jsToLower (s : String) : String :=
  ⟨s.data.map Char.toLower⟩

/-- Property read `v[key]`: on an object, the first binding for `key`
(JS objects have unique keys); anything else reads as `undefined`. -/
def JVal.get : JVal → String → JVal
  | .obj fields, key => (fields.lookup key).getD .undefined
  | _, _ => .undefined

/-- The JS test `value && typeof value === 'object'`: true exactly for
(non-null) objects and arrays. -/
def JVal.isObjectLike : JVal → Bool
  | .obj _ => true
  | .arr _ => true
  | _ => false

/-- The JS test `typeof value === 'string'` as a Bool predicate. -/
def JVal.isStr : JVal → Bool
  | .str _ => true
  | _ => false

mutual

/-- JS `String(value)` coercion. -/
def JVal.jsString : JVal → String
  | .undefined => "undefined"
  | .null => "null"
  | .bool b => if b then "true" else "false"
  | .num n => toString n
  | .str s => s
  | .arr items => String.intercalate "," (jsStringElems items)
  | .obj _ => "[object Object]"

/-- Elements of `Array.prototype.toString`: `null`/`undefined` elements
render as the empty string. -/
def jsStringElems : List JVal → List String
  | [] => []
  | .null :: rest => "" :: jsStringElems rest
  | .undefined :: rest => "" :: jsStringElems rest
  | v :: rest => v.jsString :: jsStringElems rest

end

/-- Model of `toNumberOrNull` from `data.ts`: a finite number or null.  All `num`
values of the model are finite. -/
def toNumberOrNull : JVal → Option Int
  | .num n => some n
  | _ => none

/-- Model of `toStringOrNull` from `data.ts`. -/
def toStringOrNull : JVal → Option String
  | .str s => some s
  | _ => none

/-- Model of `trimStringOrNull` from `data.ts`: `!value` also rejects the empty
string, then the trimmed value unless it is empty. -/
def trimStringOrNull : Option String → Option String
  | none => none
  | some s =>
    if s = "" then none
    else if jsTrim s = "" then none
    else some (jsTrim s)

/-- Model of `toTrimmedString` from `data.ts`. -/
def toTrimmedString : JVal → Option String
  | .str s => trimStringOrNull (some s)
  | .num n => some (toString n)
  | _ => none

/-- The nullish-coalescing operator `a ?? b` on optional values (the
left operand is never the empty string in the chains of `data.ts`, where
every operand is a `trimStringOrNull` result). -/
def firstSome {α : Type} : Option α → Option α → Option α
  | some x, _ => some x
  | none, b => b

/-- Base-10 value of a list of ASCII digit characters (0 for `[]`). -/
def digitsVal (ds : List Char) : Nat :=
  ds.foldl (fun acc c => acc * 10 + (c.toNat - 48)) 0

/-- JS `Number.parseInt(s, 10)` composed with the `Number.isFinite`
guard: skip leading whitespace, optional sign, then a nonempty run of
leading ASCII digits, else NaN (`none`). -/
def jsParseInt (s : String) : Option Int :=
  let cs := s.data.dropWhile Char.isWhitespace
  match cs with
  | '-' :: rest =>
    let ds := rest.takeWhile Char.isDigit
    if ds.isEmpty then none else some (-(digitsVal ds : Int))
  | '+' :: rest =>
    let ds := rest.takeWhile Char.isDigit
    if ds.isEmpty then none else some ((digitsVal ds : Int))
  | _ =>
    let ds := cs.takeWhile Char.isDigit
    if ds.isEmpty then none else some ((digitsVal ds : Int))

/-- Model of `parseWeight` from `data.ts`: `weight.match(/\d+/)` finds the first
run of digits anywhere in the string and parses it. -/
def parseWeight (weight : String) : Option Int :=
  match weight.data.dropWhile (fun c => !c.isDigit) with
  | [] => none
  | c :: rest => some ((digitsVal ((c :: rest).takeWhile Char.isDigit) : Int))

/-- Model of `parseHeight` from `data.ts`: on the trimmed string, match the
regex `^(\d+)\s*'?\s*(\d+)?`; the first digit group is feet, the second
(0 when absent) inches, result `feet*12+inches`; no leading digit run
means no match (`null`).  The regex is greedy and all parts after the
first group are optional, so it never backtracks: group 1 is the whole
leading digit run. -/
def parseHeight (height : String) : Option Int :=
  let t := (jsTrim height).data
  let feetDigits := t.takeWhile Char.isDigit
  if feetDigits.isEmpty then none
  else
    let afterFeet := t.dropWhile Char.isDigit
    let afterSpace1 := afterFeet.dropWhile Char.isWhitespace
    let afterTick :=
      match afterSpace1 with
      | '\'' :: rest => rest
      | _ => afterSpace1
    let afterSpace2 := afterTick.dropWhile Char.isWhitespace
    let inchDigits := afterSpace2.takeWhile Char.isDigit
    some ((digitsVal feetDigits : Int) * 12 + (digitsVal inchDigits : Int))

structure PlayerInjury where
  id : Option String
  type : Option String
  status : Option String
  description : Option String
  date : Option String
deriving DecidableEq, Repr

structure Player where
  id : String
  uid : Option String
  guid : Option String
  displayName : String
  fullName : Option String
  firstName : Option String
  lastName : Option String
  shortName : Option String
  jersey : String
  position : String
  positionAbbreviation : Option String
  positionName : Option String
  positionId : Option String
  experience : String
  experienceAbbreviation : Option String
  experienceYears : Option Int
  height : String
  weight : String
  hometown : String
  birthCity : Option String
  birthState : Option String
  birthCountry : Option String
  birthCountryAbbreviation : Option String
  flagUrl : Option String
  flagAlt : Option String
  status : String
  statusType : Option String
  statusAbbreviation : Option String
  isActive : Bool
  slug : Option String
  type : Option String
  injuries : List PlayerInjury
deriving DecidableEq, Repr

inductive SortKey where
  | jersey
  | displayName
  | position
  | experience
  | height
  | weight
  | hometown
deriving DecidableEq, Repr

inductive SortDirection where
  | asc
  | desc
deriving DecidableEq, Repr

structure SortConfig where
  key : SortKey
  direction : SortDirection
deriving DecidableEq, Repr

/-- Sign of `a.localeCompare(b, undefined, { sensitivity: 'base' })`,
modelled as comparison of the lowercased strings. -/
def localeCompareBase (a b : String) : Int :=
  if jsToLower a < jsToLower b then -1
  else if jsToLower b < jsToLower a then 1
  else 0

/-- The string read `a[key]` used by the comparator's fallthrough. -/
def Player.sortField (p : Player) : SortKey → String
  | .jersey => p.jersey
  | .displayName => p.displayName
  | .position => p.position
  | .experience => p.experience
  | .height => p.height
  | .weight => p.weight
  | .hometown => p.hometown

/-- The direction modifier `direction === 'asc' ? 1 : -1`. -/
def dirModifier : SortDirection → Int
  | .asc => 1
  | .desc => -1

/-- The body of one numeric-key block of `comparePlayers`: `some r`
models an early `return r`, `none` models falling through to the string
comparison at the end of the function. -/
def numericKeyCompare (a b : Player) (config : SortConfig)
    (va vb : Option Int) : Option Int :=
  match va, vb with
  | none, none =>
    some (localeCompareBase a.displayName b.displayName * dirModifier config.direction)
  | none, some _ => some (if config.direction = .asc then 1 else -1)
  | some _, none => some (if config.direction = .asc then -1 else 1)
  | some x, some y =>
    if x ≠ y then some ((x - y) * dirModifier config.direction) else none

/-- The three numeric-key blocks of `comparePlayers` taken together:
`some r` models an early `return r` from one of them, `none` models
reaching the string comparison at the end of the function (the string
keys run no numeric block at all). -/
def numericCompareResult (a b : Player) (config : SortConfig) : Option Int :=
  match config.key with
  | .jersey => numericKeyCompare a b config (jsParseInt a.jersey) (jsParseInt b.jersey)
  | .weight => numericKeyCompare a b config (parseWeight a.weight) (parseWeight b.weight)
  | .height => numericKeyCompare a b config (parseHeight a.height) (parseHeight b.height)
  | _ => none

/-- The final string comparison of `comparePlayers`: the sort field
itself, then the displayName tiebreak, both direction-adjusted. -/
def stringKeyCompare (a b : Player) (config : SortConfig) : Int :=
  if localeCompareBase (a.sortField config.key) (b.sortField config.key) ≠ 0 then
    localeCompareBase (a.sortField config.key) (b.sortField config.key) *
      dirModifier config.direction
  else localeCompareBase a.displayName b.displayName * dirModifier config.direction

/-- Model of `comparePlayers` from `data.ts`. -/
def comparePlayers (a b : Player) (config : SortConfig) : Int :=
  match numericCompareResult a b config with
  | some r => r
  | none => stringKeyCompare a b config

/-- The searchable fields of `filterAndSortPlayers`, in source order;
`some` entries correspond to the always-string fields. -/
def searchFieldValues (p : Player) : List (Option String) :=
  [some p.displayName, p.fullName, p.firstName, p.lastName, some p.jersey,
   some p.position, p.positionAbbreviation, some p.experience, some p.hometown,
   some p.status]

/-- The value `[...].filter(Boolean).join(' ').toLowerCase()` of the searchable
fields: drop nulls and empty strings, space-join, lowercase. -/
def playerSearchText (p : Player) : String :=
  jsToLower (String.intercalate " "
    (((searchFieldValues p).filterMap id).filter (fun s => s ≠ "")))

/-- Whether `needle` matches at the front of `hay`. -/
def charsMatchAt : List Char → List Char → Bool
  | [], _ => true
  | _ :: _, [] => false
  | a :: as, b :: bs => a == b && charsMatchAt as bs

/-- Whether `needle` occurs as a contiguous segment of the list. -/
def segOccurs (needle : List Char) : List Char → Bool
  | [] => needle.isEmpty
  | c :: rest => charsMatchAt needle (c :: rest) || segOccurs needle rest

/-- JS `hay.includes(needle)`: substring containment. -/
def strIncludes (hay needle : String) : Bool :=
  segOccurs needle.data hay.data

/-- Model of `filterAndSortPlayers` from the roster selectors: normalize the
query, keep the whole list when it is empty, otherwise filter by
substring match on the searchable text, then sort a copy with
`comparePlayers` (JS `Array.prototype.sort` is stable; `insertionSort`
with `comparePlayers a b config ≤ 0` is the same stable order). -/
def filterAndSortPlayers (players : List Player) (query : String)
    (config : SortConfig) : List Player :=
  let normalizedQuery := jsToLower (jsTrim query)
  let baseList :=
    if normalizedQuery = "" then players
    else players.filter (fun p => strIncludes (playerSearchText p) normalizedQuery)
  List.insertionSort (fun a b => comparePlayers a b config ≤ 0) baseList

structure TeamRecordStats where
  wins : Option Int
  losses : Option Int
  ties : Option Int
  streak : Option Int
  pointsFor : Option Int
  pointsAgainst : Option Int
  avgPointsFor : Option Int
  avgPointsAgainst : Option Int
  pointDifferential : Option Int
deriving DecidableEq, Repr

/-- Model of `createEmptyRecordStats` from `data.ts`. -/
def createEmptyRecordStats : TeamRecordStats :=
  { wins := none, losses := none, ties := none, streak := none,
    pointsFor := none, pointsAgainst := none, avgPointsFor := none,
    avgPointsAgainst := none, pointDifferential := none }

/-- The list `RECORD_STAT_KEYS` (also the right-hand column of
`RECORD_STAT_MAPPINGS`, which maps every key to itself). -/
def recordStatKeys : List String :=
  ["wins", "losses", "ties", "streak", "pointsFor", "pointsAgainst",
   "avgPointsFor", "avgPointsAgainst", "pointDifferential"]

/-- The `hasValue` flag of the two stats builders: a field was set for
at least one of the nine keys. -/
def statsHasValue (s : TeamRecordStats) : Bool :=
  s.wins.isSome || s.losses.isSome || s.ties.isSome || s.streak.isSome ||
  s.pointsFor.isSome || s.pointsAgainst.isSome || s.avgPointsFor.isSome ||
  s.avgPointsAgainst.isSome || s.pointDifferential.isSome

/-- The struct built by the loop of `normalizeRecordStats`: each of the
nine keys read off the flat object through `toNumberOrNull`. -/
def flatRecordStats (value : JVal) : TeamRecordStats :=
  { wins := toNumberOrNull (value.get "wins"),
    losses := toNumberOrNull (value.get "losses"),
    ties := toNumberOrNull (value.get "ties"),
    streak := toNumberOrNull (value.get "streak"),
    pointsFor := toNumberOrNull (value.get "pointsFor"),
    pointsAgainst := toNumberOrNull (value.get "pointsAgainst"),
    avgPointsFor := toNumberOrNull (value.get "avgPointsFor"),
    avgPointsAgainst := toNumberOrNull (value.get "avgPointsAgainst"),
    pointDifferential := toNumberOrNull (value.get "pointDifferential") }

/-- Model of `normalizeRecordStats` from `data.ts`. -/
def normalizeRecordStats (value : JVal) : Option TeamRecordStats :=
  if value.isObjectLike then
    if statsHasValue (flatRecordStats value) then some (flatRecordStats value)
    else none
  else none

/-- The `values` map built by `extractRecordStatsFromPayload`:
`Map.set` overwrites, so entries are prepended and `lookup` (first
match) returns the most recently set value; a falsy (empty) name is
skipped, as is a non-finite or non-numeric value. -/
def statEntryValues (entries : List JVal) : List (String × Int) :=
  entries.foldl
    (fun acc entry =>
      if entry.isObjectLike then
        match entry.get "name", toNumberOrNull (entry.get "value") with
        | .str name, some v => if name = "" then acc else (name, v) :: acc
        | _, _ => acc
      else acc)
    []

/-- The struct built by the mapping loop of
`extractRecordStatsFromPayload`: each key looked up in the `values`
map (`RECORD_STAT_MAPPINGS` maps every key to the same-named stat). -/
def lookupRecordStats (values : List (String × Int)) : TeamRecordStats :=
  { wins := values.lookup "wins",
    losses := values.lookup "losses",
    ties := values.lookup "ties",
    streak := values.lookup "streak",
    pointsFor := values.lookup "pointsFor",
    pointsAgainst := values.lookup "pointsAgainst",
    avgPointsFor := values.lookup "avgPointsFor",
    avgPointsAgainst := values.lookup "avgPointsAgainst",
    pointDifferential := values.lookup "pointDifferential" }

/-- The name-to-value map `extractRecordStatsFromPayload` builds from
its argument (empty when the argument is not an array). -/
def statValues : JVal → List (String × Int)
  | .arr entries => statEntryValues entries
  | _ => []

/-- Model of `extractRecordStatsFromPayload` from `data.ts`. -/
def extractRecordStatsFromPayload (rawStats : JVal) : Option TeamRecordStats :=
  match rawStats with
  | .arr entries =>
    if statsHasValue (lookupRecordStats (statEntryValues entries)) then
      some (lookupRecordStats (statEntryValues entries))
    else none
  | _ => none

/-- JSON serialization of a `TeamRecordStats` field: `null` for an
absent value (JSON.stringify keeps explicit nulls). -/
def optIntToJVal : Option Int → JVal
  | none => .null
  | some n => .num n

/-- The JSON object written to the cache for a `TeamRecordStats` value
(the image of the struct under stringify-then-parse). -/
def serializeRecordStats (s : TeamRecordStats) : JVal :=
  .obj [("wins", optIntToJVal s.wins), ("losses", optIntToJVal s.losses),
        ("ties", optIntToJVal s.ties), ("streak", optIntToJVal s.streak),
        ("pointsFor", optIntToJVal s.pointsFor),
        ("pointsAgainst", optIntToJVal s.pointsAgainst),
        ("avgPointsFor", optIntToJVal s.avgPointsFor),
        ("avgPointsAgainst", optIntToJVal s.avgPointsAgainst),
        ("pointDifferential", optIntToJVal s.pointDifferential)]

structure ParsedTeamRecord where
  summary : Option String
  stats : Option TeamRecordStats
deriving DecidableEq, Repr

/-- The selection test of the `parseTeamRecord` loop: a (object-like)
record item whose `type` is `"total"` or whose `description` is
`"Overall Record"` (non-string fields default to `''`; non-object items
are skipped, which coincides with never matching). -/
def recordItemMatches (item : JVal) : Bool :=
  item.isObjectLike &&
    (let type := match item.get "type" with | .str s => s | _ => ""
     let description := match item.get "description" with | .str s => s | _ => ""
     type == "total" || description == "Overall Record")

/-- The body run for the first matching record item: adopt its trimmed
`summary` unless empty, and its extracted stats unless null. -/
def applyRecordItem (item : JVal) (result : ParsedTeamRecord) : ParsedTeamRecord :=
  let afterSummary :=
    match item.get "summary" with
    | .str s => if jsTrim s ≠ "" then { result with summary := some (jsTrim s) } else result
    | _ => result
  match extractRecordStatsFromPayload (item.get "stats") with
  | some stats => { afterSummary with stats := some stats }
  | none => afterSummary

/-- The `for … break` loop of `parseTeamRecord`: scan the items in
order, apply the first match and stop. -/
def scanRecordItems : List JVal → ParsedTeamRecord → ParsedTeamRecord
  | [], result => result
  | item :: rest, result =>
    if recordItemMatches item then applyRecordItem item result
    else scanRecordItems rest result

/-- Model of `parseTeamRecord` from `data.ts`. -/
def parseTeamRecord (payload : JVal) : ParsedTeamRecord :=
  if payload.isObjectLike then
    let team := payload.get "team"
    if team.isObjectLike then
      let base : ParsedTeamRecord :=
        match team.get "recordSummary" with
        | .str s => if jsTrim s ≠ "" then ⟨some (jsTrim s), none⟩ else ⟨none, none⟩
        | _ => ⟨none, none⟩
      let record := team.get "record"
      if record.isObjectLike then
        match record.get "items" with
        | .arr items => scanRecordItems items base
        | _ => base
      else base
    else ⟨none, none⟩
  else ⟨none, none⟩

/-- One entry of `normalizePlayerInjuries` from `data.ts`: `none`
models the dropped (`null`) entries. -/
def normalizeInjury (entry : JVal) : Option PlayerInjury :=
  if entry.isObjectLike then
    let statusValue := entry.get "status"
    let status : Option String :=
      match statusValue with
      | .str s => trimStringOrNull (some s)
      | _ =>
        if statusValue.isObjectLike then
          firstSome (trimStringOrNull (toStringOrNull (statusValue.get "description")))
            (firstSome (trimStringOrNull (toStringOrNull (statusValue.get "detail")))
              (firstSome (trimStringOrNull (toStringOrNull (statusValue.get "type")))
                (trimStringOrNull (toStringOrNull (statusValue.get "name")))))
        else none
    let description :=
      firstSome (trimStringOrNull (toStringOrNull (entry.get "description")))
        (trimStringOrNull (toStringOrNull (entry.get "detail")))
    let injury : PlayerInjury :=
      { id := toTrimmedString (entry.get "id"),
        type := toTrimmedString (entry.get "type"),
        status := status,
        description := description,
        date := toTrimmedString (entry.get "date") }
    if injury.id.isSome || injury.type.isSome || injury.status.isSome ||
        injury.description.isSome || injury.date.isSome then
      some injury
    else none
  else none

/-- Model of `normalizePlayerInjuries` from `data.ts`. -/
def normalizePlayerInjuries (value : JVal) : List PlayerInjury :=
  match value with
  | .arr entries => entries.filterMap normalizeInjury
  | _ => []

/-- The resolved athlete id of `mapPlayersFromPayload`:
`record.id !== undefined && record.id !== null ? String(record.id).trim() : ''`. -/
def athleteId (record : JVal) : String :=
  match record.get "id" with
  | .undefined => ""
  | .null => ""
  | v => jsTrim v.jsString

/-- The resolved display name of `mapPlayersFromPayload`:
trimmed `displayName`, falling back to trimmed `fullName`, else `''`. -/
def athleteDisplayName (record : JVal) : String :=
  (firstSome (trimStringOrNull (toStringOrNull (record.get "displayName")))
    (trimStringOrNull (toStringOrNull (record.get "fullName")))).getD ""

/-- The city and state-or-country parts of the hometown of
`mapPlayersFromPayload` (`[birthCity, birthState || birthCountry]
.filter(Boolean)`; every candidate is a `trimStringOrNull` result, so
none is the empty string). -/
def athleteHometownParts (record : JVal) : List String :=
  let birthPlace := record.get "birthPlace"
  let birthCity := trimStringOrNull (toStringOrNull (birthPlace.get "city"))
  let birthState := trimStringOrNull (toStringOrNull (birthPlace.get "state"))
  let birthCountryName := trimStringOrNull (toStringOrNull (birthPlace.get "country"))
  let birthCountryRecord := record.get "birthCountry"
  let birthCountryAbbreviation :=
    trimStringOrNull (toStringOrNull (birthCountryRecord.get "abbreviation"))
  let birthCountry :=
    firstSome birthCountryName
      (firstSome (trimStringOrNull (toStringOrNull (birthCountryRecord.get "name")))
        birthCountryAbbreviation)
  [birthCity, firstSome birthState birthCountry].filterMap id

/-- The `Player` record built by `mapPlayersFromPayload` for an athlete
entry that passed the id/displayName guard. -/
def athleteToPlayer (athlete : JVal) : Player :=
  let positionRecord := athlete.get "position"
  let positionDisplay :=
    (firstSome (trimStringOrNull (toStringOrNull (positionRecord.get "displayName")))
      (trimStringOrNull (toStringOrNull (positionRecord.get "abbreviation")))).getD "—"
  let experienceRecord := athlete.get "experience"
  let birthPlace := athlete.get "birthPlace"
  let birthCountryRecord := athlete.get "birthCountry"
  let birthCountryName := trimStringOrNull (toStringOrNull (birthPlace.get "country"))
  let birthCountryAbbreviation :=
    trimStringOrNull (toStringOrNull (birthCountryRecord.get "abbreviation"))
  let flagRecord := athlete.get "flag"
  let statusRecord := athlete.get "status"
  let statusType := trimStringOrNull (toStringOrNull (statusRecord.get "type"))
  { id := athleteId athlete,
      uid := trimStringOrNull (toStringOrNull (athlete.get "uid")),
      guid := trimStringOrNull (toStringOrNull (athlete.get "guid")),
      displayName := athleteDisplayName athlete,
      fullName := trimStringOrNull (toStringOrNull (athlete.get "fullName")),
      firstName := trimStringOrNull (toStringOrNull (athlete.get "firstName")),
      lastName := trimStringOrNull (toStringOrNull (athlete.get "lastName")),
      shortName := trimStringOrNull (toStringOrNull (athlete.get "shortName")),
      jersey := (trimStringOrNull (toStringOrNull (athlete.get "jersey"))).getD "—",
      position := positionDisplay,
      positionAbbreviation :=
        trimStringOrNull (toStringOrNull (positionRecord.get "abbreviation")),
      positionName :=
        some ((trimStringOrNull (toStringOrNull (positionRecord.get "name"))).getD
          positionDisplay),
      positionId := toTrimmedString (positionRecord.get "id"),
      experience :=
        (trimStringOrNull (toStringOrNull (experienceRecord.get "displayValue"))).getD "—",
      experienceAbbreviation :=
        trimStringOrNull (toStringOrNull (experienceRecord.get "abbreviation")),
      experienceYears := toNumberOrNull (experienceRecord.get "years"),
      height := (trimStringOrNull (toStringOrNull (athlete.get "displayHeight"))).getD "—",
      weight := (trimStringOrNull (toStringOrNull (athlete.get "displayWeight"))).getD "—",
      hometown :=
        (let joined := String.intercalate ", " (athleteHometownParts athlete)
         if joined = "" then "—" else joined),
      birthCity := trimStringOrNull (toStringOrNull (birthPlace.get "city")),
      birthState := trimStringOrNull (toStringOrNull (birthPlace.get "state")),
      birthCountry :=
        firstSome birthCountryName
          (firstSome (trimStringOrNull (toStringOrNull (birthCountryRecord.get "name")))
            birthCountryAbbreviation),
      birthCountryAbbreviation := birthCountryAbbreviation,
      flagUrl := trimStringOrNull (toStringOrNull (flagRecord.get "href")),
      flagAlt := trimStringOrNull (toStringOrNull (flagRecord.get "alt")),
      status :=
        (firstSome (trimStringOrNull (toStringOrNull (statusRecord.get "name")))
          (trimStringOrNull (toStringOrNull (statusRecord.get "type")))).getD "—",
      statusType := statusType,
      statusAbbreviation :=
        trimStringOrNull (toStringOrNull (statusRecord.get "abbreviation")),
      isActive :=
        (match athlete.get "active" with
         | .bool b => b
         | _ => match statusType with
           | some s => jsToLower s == "active"
           | none => false),
      slug := trimStringOrNull (toStringOrNull (athlete.get "slug")),
      type := trimStringOrNull (toStringOrNull (athlete.get "type")),
      injuries := normalizePlayerInjuries (athlete.get "injuries") }

/-- The body of the `map` of `mapPlayersFromPayload`: `none` models the
entries mapped to `null` and later filtered out. -/
def mapAthlete (athlete : JVal) : Option Player :=
  if athlete.isObjectLike then
    if athleteId athlete = "" ∨ athleteDisplayName athlete = "" then none
    else some (athleteToPlayer athlete)
  else none

/-- Model of `mapPlayersFromPayload` from `data.ts`:
`payload?.team?.athletes ?? []` guarded by `Array.isArray`, then the
per-athlete map with null entries filtered out. -/
def mapPlayersFromPayload (payload : JVal) : List Player :=
  match (payload.get "team").get "athletes" with
  | .arr athletes => athletes.filterMap mapAthlete
  | _ => []

/-- The list `requiredKeys` of `isValidPlayerRecord`. -/
def requiredPlayerKeys : List String :=
  ["id", "displayName", "jersey", "position", "experience", "height",
   "weight", "hometown"]

/-- Model of `isValidPlayerRecord` from `data.ts`: an object whose eight
required fields are all strings. -/
def isValidPlayerRecord (value : JVal) : Bool :=
  if value.isObjectLike then
    requiredPlayerKeys.all (fun key => (value.get key).isStr)
  else false

/-- The cache-read admission of `hydrateFromCache`: the `players` array
of the parsed cache object filtered by `isValidPlayerRecord`. -/
def hydrateCachedPlayers (parsed : JVal) : List JVal :=
  match parsed.get "players" with
  | .arr storedPlayers => storedPlayers.filter isValidPlayerRecord
  | _ => []

/-- A fully-populated default `Player` used as the base of concrete
test inputs. -/
def basePlayer : Player :=
  { id := "0", uid := none, guid := none, displayName := "Player",
    fullName := none, firstName := none, lastName := none, shortName := none,
    jersey := "—", position := "—", positionAbbreviation := none,
    positionName := none, positionId := none, experience := "—",
    experienceAbbreviation := none, experienceYears := none, height := "—",
    weight := "—", hometown := "—", birthCity := none, birthState := none,
    birthCountry := none, birthCountryAbbreviation := none, flagUrl := none,
    flagAlt := none, status := "—", statusType := none,
    statusAbbreviation := none, isActive := false, slug := none, type := none,
    injuries := [] }

/-- Concrete player with jersey `"12"` (display names all tie). -/
def playerJersey12 : Player := { basePlayer with id := "1", jersey := "12" }

/-- Concrete player with the unparseable jersey `"—"`. -/
def playerJerseyDash : Player := { basePlayer with id := "2", jersey := "—" }

/-- Concrete player with jersey `"3"`. -/
def playerJersey3 : Player := { basePlayer with id := "3", jersey := "3" }

/-- The record-item payload of the team-record extraction example. -/
def totalRecordItem : JVal :=
  .obj [("type", .str "total"), ("summary", .str "7-5"),
        ("stats", .arr [.obj [("name", .str "wins"), ("value", .num 7)],
                        .obj [("name", .str "losses"), ("value", .num 5)]])]

/-- The payload of the team-record extraction example. -/
def recordExamplePayload : JVal :=
  .obj [("team", .obj [("record", .obj [("items", .arr [totalRecordItem])])])]

/-- A cached-player object carrying exactly the eight required string
fields and nothing else (no `injuries`, no `isActive`). -/
def minimalCachedPlayer : JVal :=
  .obj [("id", .str "15"), ("displayName", .str "Sample Player"),
        ("jersey", .str "15"), ("position", .str "Quarterback"),
        ("experience", .str "Junior"), ("height", .str "6' 2\""),
        ("weight", .str "210 lbs"), ("hometown", .str "Bloomington, IN")]

/-- The numeric value `comparePlayers` derives for one of the three
numeric sort keys (jersey via direct integer parse, weight via embedded
digits, height via feet-and-inches). -/
def numericSortValue (key : SortKey) (p : Player) : Option Int :=
  match key with
  | .jersey => jsParseInt p.jersey
  | .weight => parseWeight p.weight
  | .height => parseHeight p.height
  | _ => none

/-- The retention predicate of the search filter for a normalized
(trimmed, lowercased) query: keep everything on the empty query, else
require a substring match in the searchable text. -/
def matchesQuery (p : Player) (normalizedQuery : String) : Bool :=
  normalizedQuery == "" || strIncludes (playerSearchText p) normalizedQuery

/-- A record item that matches neither selection criterion. -/
def nonMatchingItem : JVal := .obj [("type", .str "home")]

/-- A plausible raw athlete entry (numeric id, name only under
`fullName`). -/
def exampleAthlete : JVal :=
  .obj [("id", .num 15), ("fullName", .str " Jalen Example "),
        ("jersey", .str " 15 "), ("displayHeight", .str "6' 2\""),
        ("birthPlace", .obj [("city", .str "Bloomington"), ("state", .str "IN")])]

/-- A payload carrying one well-formed athlete and one junk entry. -/
def examplePayload : JVal :=
  .obj [("team", .obj [("athletes", .arr [exampleAthlete, .str "junk", .obj []])])]

/-- The first player mapped from `examplePayload`. -/
def exampleMappedPlayer : Player :=
  (mapPlayersFromPayload examplePayload).headD basePlayer

/-- A player whose position is `"QB"`. -/
def qbPlayer : Player :=
  { basePlayer with id := "4", displayName := "Q. Back", position := "QB" }

lemma trimStringOrNull_ne_empty {o : Option String} {s : String}
    (h : trimStringOrNull o = some s) : s ≠ "" := by
  match o with
  | none => exact Option.noConfusion h
  | some t =>
    simp only [trimStringOrNull] at h
    split at h
    next => exact Option.noConfusion h
    next =>
      split at h
      next => exact Option.noConfusion h
      next h1 =>
        injection h with h2
        subst h2
        exact h1

lemma firstSome_eq_some {α : Type} {a b : Option α} {x : α}
    (h : firstSome a b = some x) : a = some x ∨ b = some x := by
  match a with
  | some y => exact Or.inl h
  | none => exact Or.inr h

lemma getD_dash_ne_empty {o : Option String}
    (h : ∀ s, o = some s → s ≠ "") : o.getD "—" ≠ "" := by
  match o with
  | none => decide
  | some s => exact h s rfl

lemma append_ne_empty_left {s : String} (t : String) (h : s ≠ "") :
    s ++ t ≠ "" := by
  intro he
  apply h
  apply String.ext
  have h2 := congrArg String.data he
  rw [String.data_append s t] at h2
  exact (List.append_eq_nil.mp h2).1

lemma intercalate_go_ne_empty (sep : String) :
    ∀ (as : List String) (acc : String), acc ≠ "" →
      String.intercalate.go acc sep as ≠ "" := by
  intro as
  induction as with
  | nil =>
    intro acc h
    simpa [String.intercalate.go] using h
  | cons a as ih =>
    intro acc h
    rw [String.intercalate.go]
    exact ih _ (append_ne_empty_left a (append_ne_empty_left sep h))

lemma intercalate_comma_ne_empty {x : String} (xs : List String) (hx : x ≠ "") :
    String.intercalate ", " (x :: xs) ≠ "" := by
  simp only [String.intercalate]
  exact intercalate_go_ne_empty ", " xs x hx

lemma mem_filterMap_pair_ne_empty {a b : Option String} {x : String}
    (ha : ∀ s, a = some s → s ≠ "") (hb : ∀ s, b = some s → s ≠ "")
    (hx : x ∈ [a, b].filterMap id) : x ≠ "" := by
  cases a with
  | none =>
    cases b with
    | none => simp [List.filterMap] at hx
    | some v =>
      simp [List.filterMap] at hx
      rw [hx]
      exact hb v rfl
  | some u =>
    cases b with
    | none =>
      simp [List.filterMap] at hx
      rw [hx]
      exact ha u rfl
    | some v =>
      simp [List.filterMap] at hx
      rcases hx with h | h
      · rw [h]
        exact ha u rfl
      · rw [h]
        exact hb v rfl

lemma athleteHometownParts_mem_ne_empty {record : JVal} {x : String}
    (hx : x ∈ athleteHometownParts record) : x ≠ "" := by
  unfold athleteHometownParts at hx
  refine mem_filterMap_pair_ne_empty ?_ ?_ hx
  · intro s hs
    exact trimStringOrNull_ne_empty hs
  · intro s hs
    rcases firstSome_eq_some hs with h | h
    · exact trimStringOrNull_ne_empty h
    · rcases firstSome_eq_some h with h | h
      · exact trimStringOrNull_ne_empty h
      · rcases firstSome_eq_some h with h | h
        · exact trimStringOrNull_ne_empty h
        · exact trimStringOrNull_ne_empty h

lemma JVal.get_of_not_objectLike {v : JVal} (h : v.isObjectLike = false)
    (k : String) : v.get k = .undefined := by
  cases v <;> simp_all [JVal.isObjectLike, JVal.get]

lemma athleteId_of_not_objectLike {v : JVal} (h : v.isObjectLike = false) :
    athleteId v = "" := by
  simp [athleteId, JVal.get_of_not_objectLike h]

lemma mapAthlete_inv {athlete : JVal} {p : Player}
    (h : mapAthlete athlete = some p) :
    p = athleteToPlayer athlete ∧ athleteId athlete ≠ "" ∧
      athleteDisplayName athlete ≠ "" := by
  unfold mapAthlete at h
  split at h
  · split at h
    next => exact Option.noConfusion h
    next hg =>
      push_neg at hg
      injection h with h2
      exact ⟨h2.symm, hg.1, hg.2⟩
  · exact Option.noConfusion h

lemma toNumberOrNull_optIntToJVal (o : Option Int) :
    toNumberOrNull (optIntToJVal o) = o := by
  cases o <;> rfl

lemma flatRecordStats_serialize (s : TeamRecordStats) :
    flatRecordStats (serializeRecordStats s) = s := by
  cases s
  simp [flatRecordStats, serializeRecordStats, JVal.get, List.lookup,
    toNumberOrNull_optIntToJVal]

lemma normalizeRecordStats_eq_some {v : JVal} {s : TeamRecordStats}
    (h : normalizeRecordStats v = some s) :
    s = flatRecordStats v ∧ statsHasValue s = true := by
  unfold normalizeRecordStats at h
  split at h
  · split at h
    next hhas =>
      injection h with h2
      subst h2
      exact ⟨rfl, hhas⟩
    next => exact Option.noConfusion h
  · exact Option.noConfusion h

/-- C3 counterexample: the height parser applied to the bare string
`"74"` does not return 74: the regex group `(\d+)` greedily captures
the whole digit run as feet, so the result is 74 feet = 888 inches. -/
theorem parseHeight_74_counterexample :
    parseHeight "74" = some 888 ∧ parseHeight "74" ≠ some 74 := by
  exact ⟨by decide, by decide⟩

/-- C3 (amended): `parseHeight "6' 2"` is 74 and `parseHeight ""` is
null as claimed, but `parseHeight "74"` is 888 (74 feet, 0 inches),
not 74; in general the parser returns null exactly when the trimmed
input has no leading digit, and otherwise returns feet*12+inches with
inches defaulting to 0 when the second digit group is absent. -/
theorem parseHeight_spec_values :
    parseHeight "6' 2" = some 74 ∧ parseHeight "" = none ∧
    parseHeight "74" = some 888 ∧
    (∀ s : String, parseHeight s = none ↔
      ((jsTrim s).data.takeWhile Char.isDigit).isEmpty = true) := by
  refine ⟨by decide, by decide, by decide, ?_⟩
  intro s
  by_cases h : ((jsTrim s).data.takeWhile Char.isDigit).isEmpty = true
  · simp [parseHeight, h]
  · simp [parseHeight, h]

/-- C10: the cache-read validator accepts exactly the object-like
values whose eight required fields (id, displayName, jersey, position,
experience, height, weight, hometown) are strings — it inspects no
other field — and in particular admits a cached player object that has
only those eight fields (no injuries list, no isActive flag). -/
theorem isValidPlayerRecord_checks_eight_fields :
    (∀ v : JVal, isValidPlayerRecord v = true ↔
      (v.isObjectLike = true ∧ (v.get "id").isStr = true ∧
       (v.get "displayName").isStr = true ∧ (v.get "jersey").isStr = true ∧
       (v.get "position").isStr = true ∧ (v.get "experience").isStr = true ∧
       (v.get "height").isStr = true ∧ (v.get "weight").isStr = true ∧
       (v.get "hometown").isStr = true)) ∧
    isValidPlayerRecord minimalCachedPlayer = true ∧
    hydrateCachedPlayers (.obj [("players", .arr [minimalCachedPlayer])]) =
      [minimalCachedPlayer] := by
  refine ⟨?_, by decide, rfl⟩
  intro v
  by_cases hv : v.isObjectLike = true
  · simp [isValidPlayerRecord, requiredPlayerKeys, hv, and_assoc]
  · have hv2 : v.isObjectLike = false := by
      cases hb : v.isObjectLike
      · rfl
      · exact absurd hb hv
    simp [isValidPlayerRecord, hv2]

/-- C8: the flat-object stats path is idempotent over the cache: any
struct produced by `normalizeRecordStats`, once serialized back to a
JSON object, renormalizes to exactly the same struct. -/
theorem normalizeRecordStats_cache_roundtrip :
    ∀ (v : JVal) (s : TeamRecordStats), normalizeRecordStats v = some s →
      normalizeRecordStats (serializeRecordStats s) = some s := by
  intro v s h
  obtain ⟨hflat, hhas⟩ := normalizeRecordStats_eq_some h
  unfold normalizeRecordStats
  rw [flatRecordStats_serialize s]
  simp [serializeRecordStats, JVal.isObjectLike, hhas]

/-- C8 witness: the roundtrip theorem applied to a concrete flat stats
object. -/
theorem normalizeRecordStats_cache_roundtrip_witness :
    normalizeRecordStats (serializeRecordStats
      { createEmptyRecordStats with wins := some 7, avgPointsFor := some 31 }) =
      some { createEmptyRecordStats with wins := some 7, avgPointsFor := some 31 } :=
  normalizeRecordStats_cache_roundtrip
    (.obj [("wins", .num 7), ("avgPointsFor", .num 31)]) _ (by decide)

lemma statsHasValue_flat_false_iff (v : JVal) :
    statsHasValue (flatRecordStats v) = false ↔
      ∀ k ∈ recordStatKeys, toNumberOrNull (v.get k) = none := by
  simp [statsHasValue, flatRecordStats, recordStatKeys,
    Option.not_isSome, Option.isNone_iff_eq_none, and_assoc]

lemma statsHasValue_lookup_false_iff (values : List (String × Int)) :
    statsHasValue (lookupRecordStats values) = false ↔
      ∀ k ∈ recordStatKeys, values.lookup k = none := by
  simp [statsHasValue, lookupRecordStats, recordStatKeys,
    Option.not_isSome, Option.isNone_iff_eq_none, and_assoc]

lemma extractRecordStats_eq_some {v : JVal} {s : TeamRecordStats}
    (h : extractRecordStatsFromPayload v = some s) :
    s = lookupRecordStats (statValues v) ∧ statsHasValue s = true := by
  unfold extractRecordStatsFromPayload at h
  split at h
  next entries =>
    split at h
    next hhas =>
      injection h with h2
      subst h2
      exact ⟨rfl, hhas⟩
    next => exact Option.noConfusion h
  next => exact Option.noConfusion h

/-- C5: each of the two stats builders returns null exactly when none
of the nine stat fields could be populated, and a returned struct always
has at least one populated field (an all-null struct is never
produced). -/
theorem recordStats_null_iff_no_field :
    ∀ v : JVal,
      (∀ s, normalizeRecordStats v = some s →
        statsHasValue s = true ∧ s ≠ createEmptyRecordStats) ∧
      (normalizeRecordStats v = none ↔
        ∀ k ∈ recordStatKeys, toNumberOrNull (v.get k) = none) ∧
      (∀ s, extractRecordStatsFromPayload v = some s →
        statsHasValue s = true ∧ s ≠ createEmptyRecordStats) ∧
      (extractRecordStatsFromPayload v = none ↔
        ∀ k ∈ recordStatKeys, (statValues v).lookup k = none) := by
  intro v
  refine ⟨?_, ?_, ?_, ?_⟩
  · intro s h
    obtain ⟨hs, hhas⟩ := normalizeRecordStats_eq_some h
    refine ⟨hhas, ?_⟩
    intro he
    rw [he] at hhas
    exact absurd hhas (by decide)
  · unfold normalizeRecordStats
    by_cases hobj : v.isObjectLike = true
    · rw [if_pos hobj]
      by_cases hhas : statsHasValue (flatRecordStats v) = true
      · rw [if_pos hhas]
        constructor
        · intro h
          exact Option.noConfusion h
        · intro hall
          have hf := (statsHasValue_flat_false_iff v).mpr hall
          rw [hf] at hhas
          exact Bool.noConfusion hhas
      · have hf : statsHasValue (flatRecordStats v) = false := by
          cases hb : statsHasValue (flatRecordStats v)
          · rfl
          · exact absurd hb hhas
        rw [if_neg hhas]
        constructor
        · intro _
          exact (statsHasValue_flat_false_iff v).mp hf
        · intro _
          rfl
    · have hobj2 : v.isObjectLike = false := by
        cases hb : v.isObjectLike
        · rfl
        · exact absurd hb hobj
      rw [if_neg hobj]
      constructor
      · intro _ k _
        rw [JVal.get_of_not_objectLike hobj2 k]
        rfl
      · intro _
        rfl
  · intro s h
    obtain ⟨hs, hhas⟩ := extractRecordStats_eq_some h
    refine ⟨hhas, ?_⟩
    intro he
    rw [he] at hhas
    exact absurd hhas (by decide)
  · cases v with
    | arr entries =>
      simp only [extractRecordStatsFromPayload, statValues]
      by_cases hhas : statsHasValue (lookupRecordStats (statEntryValues entries)) = true
      · rw [if_pos hhas]
        constructor
        · intro h
          exact Option.noConfusion h
        · intro hall
          have hf := (statsHasValue_lookup_false_iff (statEntryValues entries)).mpr hall
          rw [hf] at hhas
          exact Bool.noConfusion hhas
      · have hf : statsHasValue (lookupRecordStats (statEntryValues entries)) = false := by
          cases hb : statsHasValue (lookupRecordStats (statEntryValues entries))
          · rfl
          · exact absurd hb hhas
        rw [if_neg hhas]
        constructor
        · intro _
          exact (statsHasValue_lookup_false_iff (statEntryValues entries)).mp hf
        · intro _
          rfl
    | undefined => simp [extractRecordStatsFromPayload, statValues]
    | null => simp [extractRecordStatsFromPayload, statValues]
    | bool b => simp [extractRecordStatsFromPayload, statValues]
    | num n => simp [extractRecordStatsFromPayload, statValues]
    | str s => simp [extractRecordStatsFromPayload, statValues]
    | obj fields => simp [extractRecordStatsFromPayload, statValues]

/-- C5 witness: the non-null branch of the theorem applied to a
concrete flat object with exactly one populated field. -/
theorem recordStats_null_iff_no_field_witness :
    statsHasValue { createEmptyRecordStats with wins := some 7 } = true ∧
    { createEmptyRecordStats with wins := some 7 } ≠ createEmptyRecordStats :=
  (recordStats_null_iff_no_field (.obj [("wins", .num 7)])).1
    { createEmptyRecordStats with wins := some 7 } (by decide)

/-- C2: for the numeric sort keys, when exactly one side fails to
parse, the unparseable side sorts last in ascending order and first in
descending order (comparator value independent of the parsed value on
the other side); when both fail to parse, the comparator falls back to
case-insensitive displayName comparison times the direction
modifier. -/
theorem comparePlayers_missing_numeric_policy :
    ∀ (a b : Player) (key : SortKey) (d : SortDirection),
      (key = .jersey ∨ key = .weight ∨ key = .height) →
      ((numericSortValue key a = none → (numericSortValue key b).isSome = true →
        comparePlayers a b ⟨key, d⟩ = (if d = .asc then 1 else -1)) ∧
       ((numericSortValue key a).isSome = true → numericSortValue key b = none →
        comparePlayers a b ⟨key, d⟩ = (if d = .asc then -1 else 1)) ∧
       (numericSortValue key a = none → numericSortValue key b = none →
        comparePlayers a b ⟨key, d⟩ =
          localeCompareBase a.displayName b.displayName * dirModifier d)) := by
  intro a b key d hkey
  have hnum : numericCompareResult a b ⟨key, d⟩ =
      numericKeyCompare a b ⟨key, d⟩ (numericSortValue key a) (numericSortValue key b) := by
    rcases hkey with rfl | rfl | rfl <;> rfl
  refine ⟨?_, ?_, ?_⟩
  · intro h1 h2
    obtain ⟨y, hy⟩ := Option.isSome_iff_exists.mp h2
    have hr : numericCompareResult a b ⟨key, d⟩ = some (if d = .asc then 1 else -1) := by
      rw [hnum, h1, hy]
      rfl
    simp [comparePlayers, hr]
  · intro h1 h2
    obtain ⟨y, hy⟩ := Option.isSome_iff_exists.mp h1
    have hr : numericCompareResult a b ⟨key, d⟩ = some (if d = .asc then -1 else 1) := by
      rw [hnum, hy, h2]
      rfl
    simp [comparePlayers, hr]
  · intro h1 h2
    have hr : numericCompareResult a b ⟨key, d⟩ =
        some (localeCompareBase a.displayName b.displayName * dirModifier d) := by
      rw [hnum, h1, h2]
      rfl
    simp [comparePlayers, hr]

/-- C2 witness: the policy applied to concrete players with jerseys
`"—"` (unparseable) and `"12"`. -/
theorem comparePlayers_missing_numeric_policy_witness :
    comparePlayers playerJerseyDash playerJersey12 ⟨.jersey, .asc⟩ = 1 ∧
    comparePlayers playerJerseyDash playerJersey12 ⟨.jersey, .desc⟩ = -1 ∧
    comparePlayers playerJersey12 playerJerseyDash ⟨.jersey, .asc⟩ = -1 := by
  refine ⟨?_, ?_, ?_⟩
  · have h := (comparePlayers_missing_numeric_policy playerJerseyDash playerJersey12
      .jersey .asc (Or.inl rfl)).1 (by decide) (by decide)
    simpa using h
  · have h := (comparePlayers_missing_numeric_policy playerJerseyDash playerJersey12
      .jersey .desc (Or.inl rfl)).1 (by decide) (by decide)
    simpa using h
  · have h := (comparePlayers_missing_numeric_policy playerJersey12 playerJerseyDash
      .jersey .asc (Or.inl rfl)).2.1 (by decide) (by decide)
    simpa using h

/-- C6: the team-record parser applies exactly the first record item
whose `type` is `"total"` or whose `description` is `"Overall Record"`
(items after the first match are ignored), and on the documented example
payload yields summary `"7-5"` with wins 7, losses 5 and the other
seven stat fields null. -/
theorem parseTeamRecord_first_total_item :
    (∀ (pre post : List JVal) (item : JVal) (base : ParsedTeamRecord),
      (∀ x ∈ pre, recordItemMatches x = false) →
      recordItemMatches item = true →
      scanRecordItems (pre ++ item :: post) base = applyRecordItem item base) ∧
    parseTeamRecord recordExamplePayload =
      ⟨some "7-5",
       some { createEmptyRecordStats with wins := some 7, losses := some 5 }⟩ := by
  constructor
  · intro pre post item base
    induction pre with
    | nil =>
      intro _ hitem
      simp [scanRecordItems, hitem]
    | cons x rest ih =>
      intro hpre hitem
      have hx : recordItemMatches x = false := hpre x (List.mem_cons_self x rest)
      simp only [List.cons_append, scanRecordItems, hx, Bool.false_eq_true, if_false]
      exact ih (fun y hy => hpre y (List.mem_cons_of_mem x hy)) hitem
  · decide

/-- C6 witness: the first-match equation applied to a concrete item
list with a non-matching item before and after the total item. -/
theorem parseTeamRecord_first_total_item_witness :
    scanRecordItems ([nonMatchingItem] ++ totalRecordItem :: [nonMatchingItem])
      ⟨none, none⟩ = applyRecordItem totalRecordItem ⟨none, none⟩ :=
  parseTeamRecord_first_total_item.1 [nonMatchingItem] [nonMatchingItem]
    totalRecordItem ⟨none, none⟩ (by decide) (by decide)

/-- C7: the search filter retains exactly the players whose searchable
text contains the normalized (trimmed, lowercased) query — everyone
when the normalized query is empty — and two queries with the same
normalization (e.g. differing only in letter casing) produce identical
results. -/
theorem filterAndSort_query_semantics :
    ∀ (players : List Player) (query : String) (config : SortConfig),
      List.Perm (filterAndSortPlayers players query config)
        (players.filter (fun p => matchesQuery p (jsToLower (jsTrim query)))) ∧
      (∀ query2 : String,
        jsToLower (jsTrim query) = jsToLower (jsTrim query2) →
        filterAndSortPlayers players query config =
          filterAndSortPlayers players query2 config) := by
  intro players query config
  constructor
  · simp only [filterAndSortPlayers]
    by_cases hq : jsToLower (jsTrim query) = ""
    · rw [if_pos hq]
      have hfil : players.filter
          (fun p => matchesQuery p (jsToLower (jsTrim query))) = players := by
        apply List.filter_eq_self.mpr
        intro p _
        simp [matchesQuery, hq]
      rw [hfil]
      exact List.perm_insertionSort _ players
    · rw [if_neg hq]
      have hbeq : (jsToLower (jsTrim query) == "") = false := by
        rw [beq_eq_false_iff_ne]
        exact hq
      have hfil : players.filter
          (fun p => matchesQuery p (jsToLower (jsTrim query))) =
          players.filter
            (fun p => strIncludes (playerSearchText p) (jsToLower (jsTrim query))) := by
        apply List.filter_congr
        intro p _
        simp [matchesQuery, hbeq]
      rw [hfil]
      exact List.perm_insertionSort _ _
  · intro query2 hq
    simp only [filterAndSortPlayers, hq]

/-- C7 witness: queries `"QB"` and `"qb"` produce identical results on
a concrete roster. -/
theorem filterAndSort_query_semantics_witness :
    filterAndSortPlayers [qbPlayer, playerJersey12] "QB" ⟨.displayName, .asc⟩ =
      filterAndSortPlayers [qbPlayer, playerJersey12] "qb" ⟨.displayName, .asc⟩ :=
  (filterAndSort_query_semantics [qbPlayer, playerJersey12] "QB"
    ⟨.displayName, .asc⟩).2 "qb" (by decide)

/-- C1 counterexample: sorting jerseys `["12", "—", "3"]` descending
does not yield 12, 3, then the unparseable player — the code places an
unparseable jersey first in descending order, not last. -/
theorem jerseySort_desc_counterexample :
    filterAndSortPlayers [playerJersey12, playerJerseyDash, playerJersey3] ""
      ⟨.jersey, .desc⟩ ≠ [playerJersey12, playerJersey3, playerJerseyDash] := by
  decide

/-- C1 (amended): for any three players with jerseys `"12"`, `"—"`
(unparseable) and `"3"`, jersey-ascending sort yields 3, 12, then the
unparseable player, and jersey-descending sort yields the unparseable
player first, then 12, then 3 — in both cases regardless of
display-name ties. -/
theorem jerseySort_mixed_order :
    ∀ a b c : Player, a.jersey = "12" → b.jersey = "—" → c.jersey = "3" →
      filterAndSortPlayers [a, b, c] "" ⟨.jersey, .asc⟩ = [c, a, b] ∧
      filterAndSortPlayers [a, b, c] "" ⟨.jersey, .desc⟩ = [b, a, c] := by
  intro a b c ha hb hc
  have h12 : jsParseInt a.jersey = some 12 := by
    rw [ha]
    decide
  have hdash : jsParseInt b.jersey = none := by
    rw [hb]
    decide
  have h3 : jsParseInt c.jersey = some 3 := by
    rw [hc]
    decide
  have cmp_ab_asc : comparePlayers a b ⟨.jersey, .asc⟩ = -1 := by
    simp [comparePlayers, numericCompareResult, numericKeyCompare, h12, hdash]
  have cmp_ab_desc : comparePlayers a b ⟨.jersey, .desc⟩ = 1 := by
    simp [comparePlayers, numericCompareResult, numericKeyCompare, h12, hdash]
  have cmp_bc_asc : comparePlayers b c ⟨.jersey, .asc⟩ = 1 := by
    simp [comparePlayers, numericCompareResult, numericKeyCompare, hdash, h3]
  have cmp_bc_desc : comparePlayers b c ⟨.jersey, .desc⟩ = -1 := by
    simp [comparePlayers, numericCompareResult, numericKeyCompare, hdash, h3]
  have cmp_ac_asc : comparePlayers a c ⟨.jersey, .asc⟩ = 9 := by
    simp [comparePlayers, numericCompareResult, numericKeyCompare, h12, h3, dirModifier]
  have cmp_ac_desc : comparePlayers a c ⟨.jersey, .desc⟩ = -9 := by
    simp [comparePlayers, numericCompareResult, numericKeyCompare, h12, h3, dirModifier]
  constructor
  · simp [filterAndSortPlayers, List.insertionSort, List.orderedInsert,
      cmp_ab_asc, cmp_bc_asc, cmp_ac_asc]
  · simp [filterAndSortPlayers, List.insertionSort, List.orderedInsert,
      cmp_ab_desc, cmp_bc_desc, cmp_ac_desc]

/-- C1 witness: the amended order on concrete players (tying
display names). -/
theorem jerseySort_mixed_order_witness :
    filterAndSortPlayers [playerJersey12, playerJerseyDash, playerJersey3] ""
      ⟨.jersey, .asc⟩ = [playerJersey3, playerJersey12, playerJerseyDash] ∧
    filterAndSortPlayers [playerJersey12, playerJerseyDash, playerJersey3] ""
      ⟨.jersey, .desc⟩ = [playerJerseyDash, playerJersey12, playerJersey3] :=
  jerseySort_mixed_order playerJersey12 playerJerseyDash playerJersey3 rfl rfl rfl

/-- C4: every player produced from a payload has a non-empty id and
displayName, and an athlete entry is dropped (maps to nothing) exactly
when its resolved id or resolved displayName (with fullName fallback)
is empty. -/
theorem mapPlayers_requires_id_displayName :
    (∀ payload : JVal, ∀ p ∈ mapPlayersFromPayload payload,
      p.id ≠ "" ∧ p.displayName ≠ "") ∧
    (∀ athlete : JVal, mapAthlete athlete = none ↔
      (athleteId athlete = "" ∨ athleteDisplayName athlete = "")) := by
  constructor
  · intro payload p hp
    unfold mapPlayersFromPayload at hp
    split at hp
    next =>
      obtain ⟨a, -, ha⟩ := List.mem_filterMap.mp hp
      obtain ⟨hpa, hid, hname⟩ := mapAthlete_inv ha
      subst hpa
      exact ⟨hid, hname⟩
    next => simp at hp
  · intro athlete
    constructor
    · intro h
      by_contra hc
      push_neg at hc
      obtain ⟨h1, h2⟩ := hc
      have hobj : athlete.isObjectLike = true := by
        by_contra hno
        have hf : athlete.isObjectLike = false := by
          cases hbb : athlete.isObjectLike
          · rfl
          · exact absurd hbb hno
        exact h1 (athleteId_of_not_objectLike hf)
      unfold mapAthlete at h
      rw [if_pos hobj, if_neg (not_or.mpr ⟨h1, h2⟩)] at h
      exact Option.noConfusion h
    · intro h
      unfold mapAthlete
      by_cases hobj : athlete.isObjectLike = true
      · rw [if_pos hobj, if_pos h]
      · rw [if_neg hobj]

/-- C4 witness: the invariant on the player mapped from a concrete
payload (an athlete with numeric id and a name only under fullName). -/
theorem mapPlayers_requires_id_displayName_witness :
    exampleMappedPlayer.id ≠ "" ∧ exampleMappedPlayer.displayName ≠ "" :=
  mapPlayers_requires_id_displayName.1 examplePayload exampleMappedPlayer (by decide)

/-- C9: every player built from an athlete entry has non-empty jersey,
position, experience, height, weight, hometown and status; each of the
first five is the trimmed source value when present and the literal
dash `"—"` when absent, and the hometown is the `", "`-join of the
city and state-or-country parts, with the dash only when both parts
are missing. -/
theorem mapPlayers_display_field_defaults :
    ∀ (athlete : JVal) (p : Player), mapAthlete athlete = some p →
      (p.jersey ≠ "" ∧ p.position ≠ "" ∧ p.experience ≠ "" ∧ p.height ≠ "" ∧
       p.weight ≠ "" ∧ p.hometown ≠ "" ∧ p.status ≠ "") ∧
      p.jersey = (trimStringOrNull (toStringOrNull (athlete.get "jersey"))).getD "—" ∧
      p.experience = (trimStringOrNull (toStringOrNull
        ((athlete.get "experience").get "displayValue"))).getD "—" ∧
      p.height = (trimStringOrNull (toStringOrNull (athlete.get "displayHeight"))).getD "—" ∧
      p.weight = (trimStringOrNull (toStringOrNull (athlete.get "displayWeight"))).getD "—" ∧
      p.position = (firstSome
        (trimStringOrNull (toStringOrNull ((athlete.get "position").get "displayName")))
        (trimStringOrNull (toStringOrNull ((athlete.get "position").get "abbreviation")))).getD "—" ∧
      p.status = (firstSome
        (trimStringOrNull (toStringOrNull ((athlete.get "status").get "name")))
        (trimStringOrNull (toStringOrNull ((athlete.get "status").get "type")))).getD "—" ∧
      (athleteHometownParts athlete = [] → p.hometown = "—") ∧
      (∀ x xs, athleteHometownParts athlete = x :: xs →
        p.hometown = String.intercalate ", " (x :: xs)) := by
  intro athlete p h
  obtain ⟨hpa, -, -⟩ := mapAthlete_inv h
  subst hpa
  refine ⟨⟨?_, ?_, ?_, ?_, ?_, ?_, ?_⟩, rfl, rfl, rfl, rfl, rfl, rfl, ?_, ?_⟩
  · exact getD_dash_ne_empty (fun s hs => trimStringOrNull_ne_empty hs)
  · refine getD_dash_ne_empty (fun s hs => ?_)
    rcases firstSome_eq_some hs with h1 | h1
    · exact trimStringOrNull_ne_empty h1
    · exact trimStringOrNull_ne_empty h1
  · exact getD_dash_ne_empty (fun s hs => trimStringOrNull_ne_empty hs)
  · exact getD_dash_ne_empty (fun s hs => trimStringOrNull_ne_empty hs)
  · exact getD_dash_ne_empty (fun s hs => trimStringOrNull_ne_empty hs)
  · show (if String.intercalate ", " (athleteHometownParts athlete) = "" then "—"
      else String.intercalate ", " (athleteHometownParts athlete)) ≠ ""
    by_cases hj : String.intercalate ", " (athleteHometownParts athlete) = ""
    · rw [if_pos hj]
      decide
    · rw [if_neg hj]
      exact hj
  · refine getD_dash_ne_empty (fun s hs => ?_)
    rcases firstSome_eq_some hs with h1 | h1
    · exact trimStringOrNull_ne_empty h1
    · exact trimStringOrNull_ne_empty h1
  · intro h0
    show (if String.intercalate ", " (athleteHometownParts athlete) = "" then "—"
      else String.intercalate ", " (athleteHometownParts athlete)) = "—"
    rw [h0]
    decide
  · intro x xs hxs
    have hmem : x ∈ athleteHometownParts athlete := by
      rw [hxs]
      exact List.mem_cons_self x xs
    have hx : x ≠ "" := athleteHometownParts_mem_ne_empty hmem
    have hne := intercalate_comma_ne_empty xs hx
    show (if String.intercalate ", " (athleteHometownParts athlete) = "" then "—"
      else String.intercalate ", " (athleteHometownParts athlete)) =
      String.intercalate ", " (x :: xs)
    rw [hxs, if_neg hne]

/-- C9 witness: the invariant and the jersey/hometown equations on a
concrete athlete entry. -/
theorem mapPlayers_display_field_defaults_witness :
    exampleMappedPlayer.jersey ≠ "" ∧ exampleMappedPlayer.position ≠ "" ∧
    exampleMappedPlayer.experience ≠ "" ∧ exampleMappedPlayer.height ≠ "" ∧
    exampleMappedPlayer.weight ≠ "" ∧ exampleMappedPlayer.hometown ≠ "" ∧
    exampleMappedPlayer.status ≠ "" :=
  (mapPlayers_display_field_defaults exampleAthlete exampleMappedPlayer (by decide)).1
